/-
Verification of the foodgram backend's core business logic against its
specification.  The definitions below are a shallow embedding of
backend/api/serializers.py and backend/api/views.py: Python dicts with
integer (or ORM-object) values are association lists from `String` to
`Int` (an ORM object reference is represented by its integer primary
key), Django querysets of reference ids are `List Int`, and code that
raises is modelled with `Except` / explicit outcome types.
-/
import Mathlib

namespace Foodgram

/-- A Python dict with string keys.  Values are integers; an ORM object
value (an `Ingredient` instance) is represented by its primary key. -/
abbrev Item := List (String × Int)

/-- `dict.get(k)`: the value at the first matching key, else `None`. -/
def getKey (it : Item) (k : String) : Option Int :=
  (it.find? (fun p => p.1 == k)).map (fun p => p.2)

/-- A recipe draft as seen by `RecipeSerializer.validate`: the scalar
fields, the raw `ingredients` list of dicts, and the tag ids resolved by
the `PrimaryKeyRelatedField` (a `Tag` object is represented by its id). -/
structure Draft where
  name : String
  text : String
  cooking_time : Int
  image : String
  ingredients : List Item
  tags : List Int
deriving Repr, DecidableEq

/-- The closed set of validation errors raised by
`RecipeSerializer.validate` (one constructor per `ValidationError` site,
in source order). -/
inductive VErr where
  | emptyIngredients
  | emptyTags
  | duplicateTag
  | missingField
  | duplicateIngredient (id : Int)
  | invalidAmount (id : Int)
  | ingredientNotFound (id : Int)
deriving Repr, DecidableEq

/-- The `for item in ingredients` loop of `RecipeSerializer.validate`
(serializers.py:244-272).  `db` is the set of ids present in the
`Ingredient` reference table (`Ingredient.objects.filter(id=..).exists()`),
`seen` is the accumulated `ingredient_ids` set.  Each accepted entry is
appended as the dict `{'ingredient': <Ingredient object>, 'quantity': amount}`. -/
def validateIngredients (db : List Int) (seen : List Int) :
    List Item → Except VErr (List Item)
  | [] => Except.ok []
  | item :: rest =>
    match getKey item "id", getKey item "amount" with
    | none, _ => Except.error VErr.missingField
    | some _, none => Except.error VErr.missingField
    | some i, some a =>
      if i ∈ seen then Except.error (VErr.duplicateIngredient i)
      else if a < 1 then Except.error (VErr.invalidAmount i)
      else if i ∉ db then Except.error (VErr.ingredientNotFound i)
      else
        match validateIngredients db (i :: seen) rest with
        | Except.error e => Except.error e
        | Except.ok ls => Except.ok ([("ingredient", i), ("quantity", a)] :: ls)

/-- `RecipeSerializer.validate` (serializers.py:223-275): empty-ingredient
check, empty-tag check, duplicate-tag check (`len(tags) != len(set(tags))`,
modelled as comparing the length with the deduplicated length), then the
per-entry ingredient walk; on success the `ingredients` key of the data
dict is replaced by the normalized entries. -/
def RecipeSerializer.validate (db : List Int) (d : Draft) : Except VErr Draft :=
  if d.ingredients.isEmpty then Except.error VErr.emptyIngredients
  else if d.tags.isEmpty then Except.error VErr.emptyTags
  else if d.tags.length ≠ d.tags.dedup.length then Except.error VErr.duplicateTag
  else
    match validateIngredients db [] d.ingredients with
    | Except.error e => Except.error e
    | Except.ok ls => Except.ok { d with ingredients := ls }

/-- The ingredient id stored in a normalized line
(`item['ingredient']`, represented by its primary key). -/
def lineIngredient (it : Item) : Int := (getKey it "ingredient").getD 0

/-- The quantity stored in a normalized line (`item['quantity']`). -/
def lineQuantity (it : Item) : Int := (getKey it "quantity").getD 0

-- Small computation facts about normalized entries.
lemma getKey_norm_ingredient (i a : Int) :
    getKey [("ingredient", i), ("quantity", a)] "ingredient" = some i := rfl

lemma getKey_norm_quantity (i a : Int) :
    getKey [("ingredient", i), ("quantity", a)] "quantity" = some a := rfl

lemma getKey_norm_id (i a : Int) :
    getKey [("ingredient", i), ("quantity", a)] "id" = none := rfl

lemma lineIngredient_norm (i a : Int) :
    lineIngredient [("ingredient", i), ("quantity", a)] = i := rfl

lemma lineQuantity_norm (i a : Int) :
    lineQuantity [("ingredient", i), ("quantity", a)] = a := rfl

-- Stepping lemmas for the ingredient walk, one per exit of the loop body.

lemma validateIngredients_missing_id (db seen : List Int) (item : Item)
    (rest : List Item) (hid : getKey item "id" = none) :
    validateIngredients db seen (item :: rest) = Except.error VErr.missingField := by
  simp [validateIngredients, hid]

lemma validateIngredients_missing_amount (db seen : List Int) (item : Item)
    (rest : List Item) (ha : getKey item "amount" = none) :
    validateIngredients db seen (item :: rest) = Except.error VErr.missingField := by
  cases hid : getKey item "id" <;> simp [validateIngredients, hid, ha]

lemma validateIngredients_dup (db seen : List Int) (item : Item) (rest : List Item)
    (i a : Int) (hid : getKey item "id" = some i) (ha : getKey item "amount" = some a)
    (hs : i ∈ seen) :
    validateIngredients db seen (item :: rest) =
      Except.error (VErr.duplicateIngredient i) := by
  simp [validateIngredients, hid, ha, hs]

lemma validateIngredients_badAmount (db seen : List Int) (item : Item)
    (rest : List Item) (i a : Int) (hid : getKey item "id" = some i)
    (ha : getKey item "amount" = some a) (hs : i ∉ seen) (hlt : a < 1) :
    validateIngredients db seen (item :: rest) =
      Except.error (VErr.invalidAmount i) := by
  simp [validateIngredients, hid, ha, hs, hlt]

lemma validateIngredients_notFound (db seen : List Int) (item : Item)
    (rest : List Item) (i a : Int) (hid : getKey item "id" = some i)
    (ha : getKey item "amount" = some a) (hs : i ∉ seen) (hlt : ¬ a < 1)
    (hdb : i ∉ db) :
    validateIngredients db seen (item :: rest) =
      Except.error (VErr.ingredientNotFound i) := by
  simp [validateIngredients, hid, ha, hs, hlt, hdb]

lemma validateIngredients_step (db seen : List Int) (item : Item) (rest : List Item)
    (i a : Int) (hid : getKey item "id" = some i) (ha : getKey item "amount" = some a)
    (hs : i ∉ seen) (hlt : ¬ a < 1) (hdb : i ∈ db) :
    validateIngredients db seen (item :: rest) =
      match validateIngredients db (i :: seen) rest with
      | Except.error e => Except.error e
      | Except.ok ls => Except.ok ([("ingredient", i), ("quantity", a)] :: ls) := by
  simp [validateIngredients, hid, ha, hs, hlt, hdb]

/-- The spec's end-to-end example draft
`{tags:[1,2], ingredients:[{id:10,amount:2},{id:10,amount:a2}]}`, with the
second entry's amount left arbitrary (the claim says it is never checked). -/
def dupDraft (a2 : Int) : Draft :=
  { name := "r", text := "t", cooking_time := 5, image := "img",
    ingredients := [[("id", 10), ("amount", 2)], [("id", 10), ("amount", a2)]],
    tags := [1, 2] }

lemma validate_eq_walk (db : List Int) (d : Draft) (h1 : d.ingredients ≠ [])
    (h2 : d.tags ≠ []) (h3 : d.tags.length = d.tags.dedup.length) :
    RecipeSerializer.validate db d =
      match validateIngredients db [] d.ingredients with
      | Except.error e => Except.error e
      | Except.ok ls => Except.ok { d with ingredients := ls } := by
  simp [RecipeSerializer.validate, List.isEmpty_iff, h1, h2, h3]

/-- C1: within the ingredient walk the per-entry checks apply in the fixed
priority order missing-field, duplicate, amount below one, not-in-reference,
per entry in input order; the example draft with ingredient list
`[{id:10,amount:2},{id:10,amount:a2}]` and tags `[1,2]` fails with
`DuplicateIngredient 10` for every second amount `a2`, so the second
entry's amount is never checked. -/
theorem ingredient_checks_fixed_priority (db seen : List Int) (item : Item)
    (rest : List Item) (i a a2 : Int) :
    (getKey item "id" = none ∨ getKey item "amount" = none →
      validateIngredients db seen (item :: rest) = Except.error VErr.missingField)
    ∧ (getKey item "id" = some i → getKey item "amount" = some a → i ∈ seen →
      validateIngredients db seen (item :: rest) =
        Except.error (VErr.duplicateIngredient i))
    ∧ (getKey item "id" = some i → getKey item "amount" = some a → i ∉ seen →
      a < 1 →
      validateIngredients db seen (item :: rest) =
        Except.error (VErr.invalidAmount i))
    ∧ (getKey item "id" = some i → getKey item "amount" = some a → i ∉ seen →
      ¬ a < 1 → i ∉ db →
      validateIngredients db seen (item :: rest) =
        Except.error (VErr.ingredientNotFound i))
    ∧ (10 ∈ db →
      RecipeSerializer.validate db (dupDraft a2) =
        Except.error (VErr.duplicateIngredient 10)) := by
  refine ⟨?_, ?_, ?_, ?_, ?_⟩
  · rintro (h | h)
    · exact validateIngredients_missing_id db seen item rest h
    · exact validateIngredients_missing_amount db seen item rest h
  · exact fun hid ha hs => validateIngredients_dup db seen item rest i a hid ha hs
  · exact fun hid ha hs hlt =>
      validateIngredients_badAmount db seen item rest i a hid ha hs hlt
  · exact fun hid ha hs hlt hdb =>
      validateIngredients_notFound db seen item rest i a hid ha hs hlt hdb
  · intro h10
    have w : validateIngredients db [] (dupDraft a2).ingredients =
        Except.error (VErr.duplicateIngredient 10) := by
      have step := validateIngredients_step db []
          [("id", 10), ("amount", 2)] [[("id", 10), ("amount", a2)]] 10 2 rfl rfl
          (by simp) (by norm_num) h10
      have dup := validateIngredients_dup db [10]
          [("id", 10), ("amount", a2)] [] 10 a2 rfl rfl (by simp)
      show validateIngredients db []
          ([("id", 10), ("amount", 2)] :: [[("id", 10), ("amount", a2)]]) = _
      rw [step, dup]
    rw [validate_eq_walk db (dupDraft a2) (by simp [dupDraft]) (by simp [dupDraft])
      (by simp [dupDraft]), w]

/-- Witness for C1 at concrete entries: an entry without an id, a repeated
id, an amount of zero, an id outside the reference set, and the spec's
example draft against the reference set containing id 10. -/
theorem ingredient_checks_fixed_priority_witness :
    validateIngredients [10] [] [[("amount", 5)]] = Except.error VErr.missingField
    ∧ validateIngredients [10] [7] [[("id", 7), ("amount", 5)]] =
        Except.error (VErr.duplicateIngredient 7)
    ∧ validateIngredients [10] [] [[("id", 7), ("amount", 0)]] =
        Except.error (VErr.invalidAmount 7)
    ∧ validateIngredients [10] [] [[("id", 7), ("amount", 5)]] =
        Except.error (VErr.ingredientNotFound 7)
    ∧ RecipeSerializer.validate [10] (dupDraft 3) =
        Except.error (VErr.duplicateIngredient 10) :=
  ⟨(ingredient_checks_fixed_priority [10] [] [("amount", 5)] [] 0 0 0).1
      (Or.inl rfl),
   (ingredient_checks_fixed_priority [10] [7] [("id", 7), ("amount", 5)] [] 7 5 0).2.1
      rfl rfl (by decide),
   (ingredient_checks_fixed_priority [10] [] [("id", 7), ("amount", 0)] [] 7 0 0).2.2.1
      rfl rfl (by decide) (by decide),
   (ingredient_checks_fixed_priority [10] [] [("id", 7), ("amount", 5)] [] 7 5 0).2.2.2.1
      rfl rfl (by decide) (by decide) (by decide),
   (ingredient_checks_fixed_priority [10] [] [] [] 0 0 3).2.2.2.2 (by decide)⟩

/-- C3: the pre-walk checks run in a fixed order before any ingredient
entry is examined: empty ingredient list, then empty tag list, then a
repeated tag id detected by comparing the tag sequence length with the
deduplicated length. -/
theorem draft_prewalk_check_order (db : List Int) (d : Draft) :
    (d.ingredients = [] →
      RecipeSerializer.validate db d = Except.error VErr.emptyIngredients)
    ∧ (d.ingredients ≠ [] → d.tags = [] →
      RecipeSerializer.validate db d = Except.error VErr.emptyTags)
    ∧ (d.ingredients ≠ [] → d.tags.length ≠ d.tags.dedup.length →
      RecipeSerializer.validate db d = Except.error VErr.duplicateTag) := by
  refine ⟨?_, ?_, ?_⟩
  · intro h
    simp [RecipeSerializer.validate, List.isEmpty_iff, h]
  · intro h1 h2
    simp [RecipeSerializer.validate, List.isEmpty_iff, h1, h2]
  · intro h1 h3
    have h2 : d.tags ≠ [] := by
      intro he
      rw [he] at h3
      simp at h3
    simp [RecipeSerializer.validate, List.isEmpty_iff, h1, h2, h3]

/-- A draft with no ingredient entries. -/
def noIngDraft : Draft :=
  { name := "a", text := "b", cooking_time := 1, image := "c",
    ingredients := [], tags := [1] }

/-- A draft with one valid ingredient entry and no tags. -/
def noTagsDraft : Draft :=
  { name := "a", text := "b", cooking_time := 1, image := "c",
    ingredients := [[("id", 1), ("amount", 1)]], tags := [] }

/-- A draft with one valid ingredient entry and a repeated tag id. -/
def dupTagsDraft : Draft :=
  { name := "a", text := "b", cooking_time := 1, image := "c",
    ingredients := [[("id", 1), ("amount", 1)]], tags := [3, 3] }

/-- Witness for C3 at three concrete drafts, one per pre-walk check. -/
theorem draft_prewalk_check_order_witness :
    RecipeSerializer.validate [1] noIngDraft = Except.error VErr.emptyIngredients
    ∧ RecipeSerializer.validate [1] noTagsDraft = Except.error VErr.emptyTags
    ∧ RecipeSerializer.validate [1] dupTagsDraft = Except.error VErr.duplicateTag :=
  ⟨(draft_prewalk_check_order [1] noIngDraft).1 rfl,
   (draft_prewalk_check_order [1] noTagsDraft).2.1 (by decide) rfl,
   (draft_prewalk_check_order [1] dupTagsDraft).2.2 (by decide) (by decide)⟩

/-- Everything the ingredient walk guarantees about the accumulated
normalized list on success: same length, per-index shape taken from the
corresponding input entry, pairwise distinct ingredient ids, ids drawn
from the reference set, quantities at least one, and no id from the
incoming `seen` set. -/
lemma validateIngredients_ok (db : List Int) :
    ∀ (items : List Item) (seen : List Int) (ls : List Item),
      validateIngredients db seen items = Except.ok ls →
      ls.length = items.length
      ∧ (∀ j (hj : j < ls.length) (hj' : j < items.length),
          ∃ i a, getKey (items.get ⟨j, hj'⟩) "id" = some i
            ∧ getKey (items.get ⟨j, hj'⟩) "amount" = some a
            ∧ ls.get ⟨j, hj⟩ = [("ingredient", i), ("quantity", a)])
      ∧ (ls.map lineIngredient).Nodup
      ∧ (∀ it ∈ ls, lineIngredient it ∈ db ∧ 1 ≤ lineQuantity it)
      ∧ (∀ it ∈ ls, lineIngredient it ∉ seen) := by
  intro items
  induction items with
  | nil =>
    intro seen ls h
    simp [validateIngredients] at h
    subst h
    refine ⟨rfl, ?_, by simp, by simp, by simp⟩
    intro j hj
    simp at hj
  | cons item rest ih =>
    intro seen ls h
    cases hid : getKey item "id" with
    | none =>
      rw [validateIngredients_missing_id db seen item rest hid] at h
      simp at h
    | some i =>
      cases ha : getKey item "amount" with
      | none =>
        rw [validateIngredients_missing_amount db seen item rest ha] at h
        simp at h
      | some a =>
        by_cases hs : i ∈ seen
        · rw [validateIngredients_dup db seen item rest i a hid ha hs] at h
          simp at h
        · by_cases hlt : a < 1
          · rw [validateIngredients_badAmount db seen item rest i a hid ha hs hlt] at h
            simp at h
          · by_cases hdb : i ∈ db
            · rw [validateIngredients_step db seen item rest i a hid ha hs hlt hdb] at h
              cases hrec : validateIngredients db (i :: seen) rest with
              | error e =>
                rw [hrec] at h
                simp at h
              | ok ls' =>
                rw [hrec] at h
                simp at h
                obtain ⟨len', idx', nodup', mem', notseen'⟩ := ih (i :: seen) ls' hrec
                subst h
                refine ⟨by simp [len'], ?_, ?_, ?_, ?_⟩
                · intro j hj hj'
                  cases j with
                  | zero => exact ⟨i, a, hid, ha, rfl⟩
                  | succ k =>
                    have hk : k < ls'.length := by
                      simpa using hj
                    have hk' : k < rest.length := by
                      simpa using hj'
                    exact idx' k hk hk'
                · simp only [List.map_cons, lineIngredient_norm, List.nodup_cons]
                  refine ⟨?_, nodup'⟩
                  intro hmem
                  obtain ⟨it, hit, hlin⟩ := List.mem_map.mp hmem
                  exact notseen' it hit (hlin ▸ List.mem_cons_self i seen)
                · intro it hit
                  rcases List.mem_cons.mp hit with hhd | htl
                  · subst hhd
                    rw [lineIngredient_norm, lineQuantity_norm]
                    exact ⟨hdb, by omega⟩
                  · exact mem' it htl
                · intro it hit
                  rcases List.mem_cons.mp hit with hhd | htl
                  · subst hhd
                    rw [lineIngredient_norm]
                    exact hs
                  · intro hmem
                    exact notseen' it htl (List.mem_cons_of_mem i hmem)
            · rw [validateIngredients_notFound db seen item rest i a hid ha hs hlt hdb] at h
              simp at h

/-- C4: whenever `RecipeSerializer.validate` succeeds, the normalized
draft keeps the scalar fields and the validated tag list unchanged, its
normalized ingredient lines follow the input entries in order with the
input quantities, and the validator invariants hold: at least one line
and one tag, pairwise-distinct ingredient ids, every id in the reference
set, every quantity at least one, and no repeated tag. -/
theorem validate_success_normalization (db : List Int) (d r : Draft)
    (h : RecipeSerializer.validate db d = Except.ok r) :
    r.name = d.name ∧ r.text = d.text ∧ r.cooking_time = d.cooking_time
    ∧ r.image = d.image ∧ r.tags = d.tags
    ∧ r.ingredients.length = d.ingredients.length
    ∧ (∀ j (hj : j < r.ingredients.length) (hj' : j < d.ingredients.length),
        ∃ i a, getKey (d.ingredients.get ⟨j, hj'⟩) "id" = some i
          ∧ getKey (d.ingredients.get ⟨j, hj'⟩) "amount" = some a
          ∧ r.ingredients.get ⟨j, hj⟩ = [("ingredient", i), ("quantity", a)])
    ∧ r.ingredients ≠ [] ∧ r.tags ≠ []
    ∧ (r.ingredients.map lineIngredient).Nodup
    ∧ (∀ it ∈ r.ingredients, lineIngredient it ∈ db ∧ 1 ≤ lineQuantity it)
    ∧ r.tags.Nodup := by
  have h1 : d.ingredients ≠ [] := by
    intro hc
    simp [RecipeSerializer.validate, hc] at h
  have h2 : d.tags ≠ [] := by
    intro hc
    simp [RecipeSerializer.validate, List.isEmpty_iff, h1, hc] at h
  have h3 : d.tags.length = d.tags.dedup.length := by
    by_contra hc
    simp [RecipeSerializer.validate, List.isEmpty_iff, h1, h2, hc] at h
  rw [validate_eq_walk db d h1 h2 h3] at h
  cases hrec : validateIngredients db [] d.ingredients with
  | error e =>
    rw [hrec] at h
    simp at h
  | ok ls =>
    rw [hrec] at h
    simp at h
    obtain ⟨len', idx', nodup', mem', -⟩ := validateIngredients_ok db d.ingredients [] ls hrec
    have htagsdedup : d.tags.dedup = d.tags :=
      (List.dedup_sublist d.tags).eq_of_length h3.symm
    have htagsnodup : d.tags.Nodup := by
      rw [← htagsdedup]
      exact List.nodup_dedup d.tags
    subst h
    refine ⟨rfl, rfl, rfl, rfl, rfl, len', idx', ?_, h2, nodup', mem', htagsnodup⟩
    intro hc
    simp only [] at hc
    rw [hc] at len'
    exact h1 (List.eq_nil_of_length_eq_zero len'.symm)

/-- A well-formed draft over the reference set containing ids 1 and 5. -/
def okDraft : Draft :=
  { name := "soup", text := "boil", cooking_time := 2, image := "img",
    ingredients := [[("id", 1), ("amount", 2)], [("id", 5), ("amount", 3)]],
    tags := [1, 2] }

/-- The normalized form `RecipeSerializer.validate` produces for `okDraft`. -/
def okNormDraft : Draft :=
  { okDraft with
    ingredients := [[("ingredient", 1), ("quantity", 2)],
                    [("ingredient", 5), ("quantity", 3)]] }

/-- Witness for C4 at the concrete draft `okDraft`. -/
theorem validate_success_normalization_witness :
    RecipeSerializer.validate [1, 5] okDraft = Except.ok okNormDraft
    ∧ (okNormDraft.name = okDraft.name ∧ okNormDraft.text = okDraft.text
      ∧ okNormDraft.cooking_time = okDraft.cooking_time
      ∧ okNormDraft.image = okDraft.image ∧ okNormDraft.tags = okDraft.tags
      ∧ okNormDraft.ingredients.length = okDraft.ingredients.length
      ∧ (∀ j (hj : j < okNormDraft.ingredients.length)
          (hj' : j < okDraft.ingredients.length),
          ∃ i a, getKey (okDraft.ingredients.get ⟨j, hj'⟩) "id" = some i
            ∧ getKey (okDraft.ingredients.get ⟨j, hj'⟩) "amount" = some a
            ∧ okNormDraft.ingredients.get ⟨j, hj⟩ =
                [("ingredient", i), ("quantity", a)])
      ∧ okNormDraft.ingredients ≠ [] ∧ okNormDraft.tags ≠ []
      ∧ (okNormDraft.ingredients.map lineIngredient).Nodup
      ∧ (∀ it ∈ okNormDraft.ingredients,
          lineIngredient it ∈ [(1 : Int), 5] ∧ 1 ≤ lineQuantity it)
      ∧ okNormDraft.tags.Nodup) :=
  ⟨rfl, validate_success_normalization [1, 5] okDraft okNormDraft rfl⟩

lemma validate_ok_destruct (db : List Int) (d r : Draft)
    (h : RecipeSerializer.validate db d = Except.ok r) :
    ∃ ls, validateIngredients db [] d.ingredients = Except.ok ls
      ∧ r = { d with ingredients := ls }
      ∧ d.ingredients ≠ [] ∧ d.tags ≠ []
      ∧ d.tags.length = d.tags.dedup.length := by
  have h1 : d.ingredients ≠ [] := by
    intro hc
    simp [RecipeSerializer.validate, hc] at h
  have h2 : d.tags ≠ [] := by
    intro hc
    simp [RecipeSerializer.validate, List.isEmpty_iff, h1, hc] at h
  have h3 : d.tags.length = d.tags.dedup.length := by
    by_contra hc
    simp [RecipeSerializer.validate, List.isEmpty_iff, h1, h2, hc] at h
  rw [validate_eq_walk db d h1 h2 h3] at h
  cases hrec : validateIngredients db [] d.ingredients with
  | error e =>
    rw [hrec] at h
    simp at h
  | ok ls =>
    rw [hrec] at h
    simp at h
    exact ⟨ls, rfl, h.symm, h1, h2, h3⟩

/-- C8 amended: validation is not idempotent; whenever it succeeds, feeding
the normalized draft back in fails with `MissingField`, because normalized
entries carry the keys "ingredient" and "quantity" rather than "id" and
"amount", so `item.get('id')` is `None` on the first entry. -/
theorem revalidate_normalized_fails (db : List Int) (d r : Draft)
    (h : RecipeSerializer.validate db d = Except.ok r) :
    RecipeSerializer.validate db r = Except.error VErr.missingField := by
  obtain ⟨ls, hrec, hr, h1, h2, h3⟩ := validate_ok_destruct db d r h
  obtain ⟨len', idx', -, -, -⟩ := validateIngredients_ok db d.ingredients [] ls hrec
  have hlsne : ls ≠ [] := by
    intro hc
    rw [hc] at len'
    exact h1 (List.eq_nil_of_length_eq_zero len'.symm)
  have hri : r.ingredients = ls := by rw [hr]
  have hrt : r.tags = d.tags := by rw [hr]
  have h1' : r.ingredients ≠ [] := by
    rw [hri]
    exact hlsne
  have h2' : r.tags ≠ [] := by
    rw [hrt]
    exact h2
  have h3' : r.tags.length = r.tags.dedup.length := by
    rw [hrt]
    exact h3
  rw [validate_eq_walk db r h1' h2' h3']
  obtain ⟨hd, tl, hls⟩ := List.exists_cons_of_ne_nil hlsne
  subst hls
  obtain ⟨i, a, -, -, hhd⟩ := idx' 0 (by simp) (by rw [← len']; simp)
  simp at hhd
  rw [hri, validateIngredients_missing_id db [] hd tl
    (by rw [hhd]; exact getKey_norm_id i a)]

/-- A minimal valid draft used for the idempotence counterexample. -/
def idemDraft : Draft :=
  { name := "n", text := "t", cooking_time := 1, image := "i",
    ingredients := [[("id", 1), ("amount", 2)]], tags := [4] }

/-- The normalized output `RecipeSerializer.validate` produces for `idemDraft`. -/
def idemNorm : Draft :=
  { idemDraft with ingredients := [[("ingredient", 1), ("quantity", 2)]] }

/-- Counterexample to C8 as stated: validating `idemDraft` succeeds with
`idemNorm`, but validating `idemNorm` fails with `MissingField` instead of
returning `idemNorm` again. -/
theorem revalidate_normalized_counterexample :
    RecipeSerializer.validate [1] idemDraft = Except.ok idemNorm
    ∧ RecipeSerializer.validate [1] idemNorm = Except.error VErr.missingField
    ∧ ¬ RecipeSerializer.validate [1] idemNorm = Except.ok idemNorm := by
  refine ⟨rfl, rfl, ?_⟩
  intro hc
  exact Except.noConfusion
    (show (Except.error VErr.missingField : Except VErr Draft) =
      Except.ok idemNorm from hc)

/-- Witness for the amended C8 at the concrete draft `idemDraft`. -/
theorem revalidate_normalized_fails_witness :
    RecipeSerializer.validate [1] idemDraft = Except.ok idemNorm
    ∧ RecipeSerializer.validate [1] idemNorm = Except.error VErr.missingField :=
  ⟨rfl, revalidate_normalized_fails [1] idemDraft idemNorm rfl⟩

/-- Add one (name, unit, quantity) row to the grouped totals: sum into the
group with the same (name, unit) key if one exists, otherwise open a new
group at the end. -/
def insertGrouped : List ((String × String) × Int) → String × String × Int →
    List ((String × String) × Int)
  | [], row => [((row.1, row.2.1), row.2.2)]
  | (k, s) :: tl, row =>
    if k = (row.1, row.2.1) then (k, s + row.2.2) :: tl
    else (k, s) :: insertGrouped tl row

/-- The SQL GROUP BY issued by
`.values('ingredient__name', 'ingredient__measurement_unit')
.annotate(total_amount=Sum('quantity'))` (views.py:324-329): group the
rows by the (name, unit) pair and sum quantities.  The source leaves the
emission order to the database; this model fixes the stable
first-occurrence order. -/
def groupSum (rows : List (String × String × Int)) :
    List ((String × String) × Int) :=
  rows.foldl insertGrouped []

/-- The f-string body of the export loop:
`'{name} ({unit}) - {total}\n'`. -/
def formatLine (g : (String × String) × Int) : String :=
  g.1.1 ++ " (" ++ g.1.2 ++ ") - " ++ toString g.2 ++ "\n"

/-- Outcome of the download view: the HTTP 400 empty-cart response, an
uncaught Python exception, or the attachment text. -/
inductive DownloadOutcome where
  | emptyCartResponse
  | attributeErrorCrash
  | document (s : String)
deriving Repr, DecidableEq

/-- `RecipeViewSet.download_shopping_cart` (views.py:314-341).  `cart` is
the user's ShoppingCart recipe ids, `rows` the RecipeIngredient join rows
(recipe id, ingredient name, measurement unit, quantity).  An empty cart
answers HTTP 400.  Otherwise the view groups and sums the cart's rows and
runs `for item in ingredients: shopping_list.append(...)` — but
`shopping_list` is a `str`, which has no `append` method, so the first
iteration raises `AttributeError`; only when the grouped list is empty
does the loop body never run and the header-only document get returned. -/
def RecipeViewSet.download_shopping_cart (cart : List Int)
    (rows : List (Int × String × String × Int)) : DownloadOutcome :=
  if cart.isEmpty then DownloadOutcome.emptyCartResponse
  else
    match groupSum ((rows.filter (fun r => r.1 ∈ cart)).map (fun r => r.2)) with
    | [] => DownloadOutcome.document "Список покупок:\n\n"
    | _ :: _ => DownloadOutcome.attributeErrorCrash

/-- The spec's aggregation example as stored data: two recipes in the
cart whose joined rows carry the lines (Salt, g, 5), (Salt, g, 3) and
(Egg, pcs, 2). -/
def cartC2 : List Int := [1, 2]

/-- RecipeIngredient join rows for the cart `cartC2`. -/
def rowsC2 : List (Int × String × String × Int) :=
  [(1, "Salt", "g", 5), (2, "Salt", "g", 3), (2, "Egg", "pcs", 2)]

/-- C2 (code bug): on the spec's example cart the grouped sums are exactly
Salt/g = 8 and Egg/pcs = 2 and the loop's format string would emit
"Salt (g) - 8" and "Egg (pcs) - 2", but the view crashes with
`AttributeError` (`'str' object has no attribute 'append'`) instead of
emitting any line. -/
theorem download_shopping_cart_crashes :
    RecipeViewSet.download_shopping_cart cartC2 rowsC2 =
      DownloadOutcome.attributeErrorCrash
    ∧ groupSum ((rowsC2.filter (fun r => r.1 ∈ cartC2)).map (fun r => r.2)) =
        [(("Salt", "g"), 8), (("Egg", "pcs"), 2)]
    ∧ (groupSum ((rowsC2.filter (fun r => r.1 ∈ cartC2)).map (fun r => r.2))).map
        formatLine = ["Salt (g) - 8\n", "Egg (pcs) - 2\n"] :=
  ⟨rfl, rfl, rfl⟩

/-- C7: an empty cart makes the download view fail with the empty-cart
response; no export document is produced. -/
theorem download_empty_cart (rows : List (Int × String × String × Int)) :
    RecipeViewSet.download_shopping_cart [] rows =
      DownloadOutcome.emptyCartResponse := by
  simp [RecipeViewSet.download_shopping_cart]

/-- A stored RecipeIngredient row: ingredient reference (by primary key)
and quantity. -/
structure IngredientLine where
  ingredient : Int
  quantity : Int
deriving Repr, DecidableEq

/-- A stored recipe: scalar columns, the tag associations, and its
RecipeIngredient rows. -/
structure StoredRecipe where
  name : String
  text : String
  cooking_time : Int
  image : String
  tags : List Int
  lines : List IngredientLine
deriving Repr, DecidableEq

/-- `RecipeIngredient(recipe=.., ingredient=item['ingredient'],
quantity=item['quantity'])`: build a stored row from a normalized item.
The validator always supplies both keys; a missing key would be a Python
`KeyError` and never occurs on this path. -/
def itemToLine (it : Item) : IngredientLine :=
  { ingredient := (getKey it "ingredient").getD 0,
    quantity := (getKey it "quantity").getD 0 }

/-- `RecipeSerializer.common_process_ingredients` (serializers.py:283-296):
delete every existing RecipeIngredient row of the recipe, then bulk-insert
one row per normalized item. -/
def RecipeSerializer.common_process_ingredients (recipe : StoredRecipe)
    (ingredients : List Item) : StoredRecipe :=
  let cleared := { recipe with lines := [] }
  { cleared with lines := cleared.lines ++ ingredients.map itemToLine }

/-- The `validated_data` dict handed to `RecipeSerializer.update`: every
key may be absent (`None` means the patch did not carry the field). -/
structure UpdatePatch where
  name : Option String
  text : Option String
  cooking_time : Option Int
  image : Option String
  tags : Option (List Int)
  ingredients : Option (List Item)
deriving Repr, DecidableEq

/-- `RecipeSerializer.update` (serializers.py:309-330): `pop` tags and
ingredients with default `None`, take each scalar with
`validated_data.get(field, prior)`, call `instance.tags.set` only when
tags were supplied, and replace the ingredient rows via
`common_process_ingredients` only when ingredients were supplied. -/
def RecipeSerializer.update (inst : StoredRecipe) (vd : UpdatePatch) :
    StoredRecipe :=
  let inst1 := { inst with
    name := vd.name.getD inst.name,
    text := vd.text.getD inst.text,
    cooking_time := vd.cooking_time.getD inst.cooking_time,
    image := vd.image.getD inst.image }
  let inst2 := match vd.tags with
    | some ts => { inst1 with tags := ts }
    | none => inst1
  match vd.ingredients with
  | some its => RecipeSerializer.common_process_ingredients inst2 its
  | none => inst2

/-- C5: a patch carrying a tag or ingredient list fully replaces the prior
set (delete-all-then-insert, never a merge); a patch omitting the list
retains the prior set; scalar fields absent from the patch keep their
prior values. -/
theorem update_replace_or_retain (r : StoredRecipe) (vd : UpdatePatch)
    (ts : List Int) (its : List Item) :
    (vd.ingredients = some its →
      (RecipeSerializer.update r vd).lines = its.map itemToLine)
    ∧ (vd.ingredients = none → (RecipeSerializer.update r vd).lines = r.lines)
    ∧ (vd.tags = some ts → (RecipeSerializer.update r vd).tags = ts)
    ∧ (vd.tags = none → (RecipeSerializer.update r vd).tags = r.tags)
    ∧ (vd.name = none → (RecipeSerializer.update r vd).name = r.name)
    ∧ (vd.text = none → (RecipeSerializer.update r vd).text = r.text)
    ∧ (vd.cooking_time = none →
        (RecipeSerializer.update r vd).cooking_time = r.cooking_time)
    ∧ (vd.image = none → (RecipeSerializer.update r vd).image = r.image) := by
  refine ⟨?_, ?_, ?_, ?_, ?_, ?_, ?_, ?_⟩ <;> intro h <;>
    cases htag : vd.tags <;> cases hing : vd.ingredients <;>
      simp_all [RecipeSerializer.update, RecipeSerializer.common_process_ingredients]

/-- A stored recipe prior to an update. -/
def storedR : StoredRecipe :=
  { name := "old", text := "body", cooking_time := 3, image := "im",
    tags := [1], lines := [{ ingredient := 4, quantity := 2 }] }

/-- A patch carrying a new tag list and a new ingredient list and no
scalar fields. -/
def patchBoth : UpdatePatch :=
  { name := none, text := none, cooking_time := none, image := none,
    tags := some [2, 3], ingredients := some [[("ingredient", 5), ("quantity", 7)]] }

/-- The empty patch. -/
def patchNone : UpdatePatch :=
  { name := none, text := none, cooking_time := none, image := none,
    tags := none, ingredients := none }

/-- Witness for C5 at the concrete recipe `storedR` with a replacing patch
and an omitting patch. -/
theorem update_replace_or_retain_witness :
    (RecipeSerializer.update storedR patchBoth).lines =
      [[("ingredient", 5), ("quantity", 7)]].map itemToLine
    ∧ (RecipeSerializer.update storedR patchBoth).tags = [2, 3]
    ∧ (RecipeSerializer.update storedR patchNone).lines = storedR.lines
    ∧ (RecipeSerializer.update storedR patchNone).tags = storedR.tags
    ∧ (RecipeSerializer.update storedR patchNone).name = storedR.name
    ∧ (RecipeSerializer.update storedR patchNone).text = storedR.text
    ∧ (RecipeSerializer.update storedR patchNone).cooking_time =
        storedR.cooking_time
    ∧ (RecipeSerializer.update storedR patchNone).image = storedR.image :=
  ⟨(update_replace_or_retain storedR patchBoth [2, 3]
      [[("ingredient", 5), ("quantity", 7)]]).1 rfl,
   (update_replace_or_retain storedR patchBoth [2, 3] []).2.2.1 rfl,
   (update_replace_or_retain storedR patchNone [] []).2.1 rfl,
   (update_replace_or_retain storedR patchNone [] []).2.2.2.1 rfl,
   (update_replace_or_retain storedR patchNone [] []).2.2.2.2.1 rfl,
   (update_replace_or_retain storedR patchNone [] []).2.2.2.2.2.1 rfl,
   (update_replace_or_retain storedR patchNone [] []).2.2.2.2.2.2.1 rfl,
   (update_replace_or_retain storedR patchNone [] []).2.2.2.2.2.2.2 rfl⟩

/-- One database statement issued by `RecipeSerializer.update`, in the
order the source executes them. -/
inductive DbWrite where
  | saveScalars (name : Option String) (text : Option String)
      (cooking_time : Option Int) (image : Option String)
  | setTags (tags : List Int)
  | deleteLines
  | insertLines (items : List Item)
deriving Repr, DecidableEq

/-- Effect of one committed write on the stored recipe. -/
def applyWrite (r : StoredRecipe) : DbWrite → StoredRecipe
  | DbWrite.saveScalars n t c im =>
    { r with name := n.getD r.name, text := t.getD r.text,
             cooking_time := c.getD r.cooking_time, image := im.getD r.image }
  | DbWrite.setTags ts => { r with tags := ts }
  | DbWrite.deleteLines => { r with lines := [] }
  | DbWrite.insertLines its => { r with lines := r.lines ++ its.map itemToLine }

/-- The database statements `RecipeSerializer.update` issues, in source
order: save the scalars, set the tags when supplied, then delete and
bulk-insert the ingredient rows when supplied.  The repository wraps them
in no transaction (there is no `transaction.atomic` anywhere and
`ATOMIC_REQUESTS` is not set), so each statement commits on its own. -/
def updateWrites (vd : UpdatePatch) : List DbWrite :=
  [DbWrite.saveScalars vd.name vd.text vd.cooking_time vd.image]
  ++ (match vd.tags with
      | some ts => [DbWrite.setTags ts]
      | none => [])
  ++ (match vd.ingredients with
      | some its => [DbWrite.deleteLines, DbWrite.insertLines its]
      | none => [])

/-- The stored states a reader can observe while the statements of one
update commit one by one: the state after every prefix of the writes. -/
def observableStates (r : StoredRecipe) (ws : List DbWrite) :
    List StoredRecipe :=
  List.scanl applyWrite r ws

/-- Counterexample to C9 as stated: during the update of `storedR` by
`patchBoth` the state reached after the delete of the old ingredient rows
is observable, differs from both the initial and the final state, and
carries the new tags with no ingredient rows at all — the persist step is
not atomic. -/
theorem update_not_atomic_counterexample :
    List.foldl applyWrite storedR ((updateWrites patchBoth).take 3) ∈
        observableStates storedR (updateWrites patchBoth)
    ∧ List.foldl applyWrite storedR ((updateWrites patchBoth).take 3) ≠ storedR
    ∧ List.foldl applyWrite storedR ((updateWrites patchBoth).take 3) ≠
        List.foldl applyWrite storedR (updateWrites patchBoth)
    ∧ (List.foldl applyWrite storedR ((updateWrites patchBoth).take 3)).tags =
        [2, 3]
    ∧ (List.foldl applyWrite storedR ((updateWrites patchBoth).take 3)).lines =
        [] := by
  refine ⟨?_, by decide, by decide, by decide, by decide⟩
  simp [observableStates, updateWrites, patchBoth, List.scanl]

/-- C9 amended: the persist step of an update is the source-ordered
sequence of individually committed writes `updateWrites`; running the
whole sequence is exactly `RecipeSerializer.update`, but when the patch
carries both a tag list and an ingredient list, the state just after the
deletion of the old ingredient rows — new tags, no ingredient rows — is
one of the observable states, so a failure of the final bulk-insert
leaves the recipe partially updated. -/
theorem update_writes_partial_state (r : StoredRecipe) (vd : UpdatePatch)
    (ts : List Int) (its : List Item) :
    List.foldl applyWrite r (updateWrites vd) = RecipeSerializer.update r vd
    ∧ (vd.tags = some ts → vd.ingredients = some its →
        List.foldl applyWrite r ((updateWrites vd).take 3) ∈
            observableStates r (updateWrites vd)
        ∧ (List.foldl applyWrite r ((updateWrites vd).take 3)).tags = ts
        ∧ (List.foldl applyWrite r ((updateWrites vd).take 3)).lines = []) := by
  constructor
  · cases htag : vd.tags <;> cases hing : vd.ingredients <;>
      simp [updateWrites, RecipeSerializer.update,
        RecipeSerializer.common_process_ingredients, applyWrite, htag, hing]
  · intro htag hing
    refine ⟨?_, by simp [updateWrites, applyWrite, htag, hing], by
      simp [updateWrites, applyWrite, htag, hing]⟩
    simp [observableStates, updateWrites, htag, hing, List.scanl]

/-- Witness for the amended C9 at the concrete recipe `storedR` and patch
`patchBoth`. -/
theorem update_writes_partial_state_witness :
    List.foldl applyWrite storedR (updateWrites patchBoth) =
        RecipeSerializer.update storedR patchBoth
    ∧ (List.foldl applyWrite storedR ((updateWrites patchBoth).take 3) ∈
          observableStates storedR (updateWrites patchBoth)
      ∧ (List.foldl applyWrite storedR
          ((updateWrites patchBoth).take 3)).tags = [2, 3]
      ∧ (List.foldl applyWrite storedR
          ((updateWrites patchBoth).take 3)).lines = []) :=
  ⟨(update_writes_partial_state storedR patchBoth [2, 3]
      [[("ingredient", 5), ("quantity", 7)]]).1,
   (update_writes_partial_state storedR patchBoth [2, 3]
      [[("ingredient", 5), ("quantity", 7)]]).2 rfl rfl⟩

/-- The subscription errors surfaced by `SubscribeSerializer.validate` and
by the DELETE branch of `UserViewSet.subscribe`. -/
inductive SubErr where
  | alreadySubscribed
  | selfSubscription
  | notSubscribed
deriving Repr, DecidableEq

/-- `SubscribeSerializer.validate` (serializers.py:398-414): the
existing-pair check runs first, the self-subscription check second.
`pairs` is the stored Subscribe table as (user, subscription) id pairs. -/
def SubscribeSerializer.validate (pairs : List (Int × Int)) (user target : Int) :
    Except SubErr Unit :=
  if (user, target) ∈ pairs then Except.error SubErr.alreadySubscribed
  else if user = target then Except.error SubErr.selfSubscription
  else Except.ok ()

/-- `serializer.save(user=user)` after successful validation
(views.py:176): insert the (user, target) row. -/
def subscribeSave (pairs : List (Int × Int)) (user target : Int) :
    List (Int × Int) :=
  (user, target) :: pairs

/-- The DELETE branch of `UserViewSet.subscribe` (views.py:204-214):
answer `NotSubscribed` when no (user, target) row exists, otherwise
delete the matching rows. -/
def UserViewSet.unsubscribe (pairs : List (Int × Int)) (user target : Int) :
    Except SubErr (List (Int × Int)) :=
  if (user, target) ∉ pairs then Except.error SubErr.notSubscribed
  else Except.ok (pairs.filter (fun p => p ≠ (user, target)))

/-- No stored pair subscribes a user to themselves.  `Subscribe.save`
calls `clean`, which rejects self-pairs (recipes/models.py:157-165), so
every reachable Subscribe table satisfies this. -/
def noSelfPairs (pairs : List (Int × Int)) : Prop :=
  ∀ p ∈ pairs, p.1 ≠ p.2

/-- C6: against a reachable subscription table (one with no stored
self-pair), subscribing to oneself fails with `SelfSubscription`;
subscribing a second time to the same target, after the first attempt
validated and was saved, fails with `AlreadySubscribed`; unsubscribing
with no stored (user, target) pair fails with `NotSubscribed`; and a
successful validation followed by the save preserves the no-self-pair
invariant. -/
theorem subscription_error_reporting (pairs : List (Int × Int)) (u t : Int)
    (hself : (u, u) ∉ pairs) :
    SubscribeSerializer.validate pairs u u = Except.error SubErr.selfSubscription
    ∧ (SubscribeSerializer.validate pairs u t = Except.ok () →
        SubscribeSerializer.validate (subscribeSave pairs u t) u t =
          Except.error SubErr.alreadySubscribed)
    ∧ ((u, t) ∉ pairs →
        UserViewSet.unsubscribe pairs u t = Except.error SubErr.notSubscribed)
    ∧ (noSelfPairs pairs → SubscribeSerializer.validate pairs u t = Except.ok () →
        noSelfPairs (subscribeSave pairs u t)) := by
  refine ⟨?_, ?_, ?_, ?_⟩
  · simp [SubscribeSerializer.validate, hself]
  · intro hok
    simp [SubscribeSerializer.validate, subscribeSave]
  · intro h
    simp [UserViewSet.unsubscribe, h]
  · intro hns hok
    have hne : u ≠ t := by
      intro he
      subst he
      simp [SubscribeSerializer.validate, hself] at hok
    intro p hp
    rcases List.mem_cons.mp hp with hhd | htl
    · subst hhd
      exact hne
    · exact hns p htl

/-- Witness for C6 with user 1, target 3 and the stored table [(1, 2)]. -/
theorem subscription_error_reporting_witness :
    SubscribeSerializer.validate [(1, 2)] 1 1 =
        Except.error SubErr.selfSubscription
    ∧ SubscribeSerializer.validate (subscribeSave [(1, 2)] 1 3) 1 3 =
        Except.error SubErr.alreadySubscribed
    ∧ UserViewSet.unsubscribe [(1, 2)] 1 3 = Except.error SubErr.notSubscribed
    ∧ noSelfPairs (subscribeSave [(1, 2)] 1 3) :=
  ⟨(subscription_error_reporting [(1, 2)] 1 1 (by decide)).1,
   (subscription_error_reporting [(1, 2)] 1 3 (by decide)).2.1 rfl,
   (subscription_error_reporting [(1, 2)] 1 3 (by decide)).2.2.1 (by decide),
   (subscription_error_reporting [(1, 2)] 1 3 (by decide)).2.2.2
     (by simp [noSelfPairs]) rfl⟩

/-- C10: in `SubscribeSerializer.validate` the existing-pair test precedes
the self-subscription test, so a self-subscription attempt whose (user,
user) pair is already stored reports `AlreadySubscribed`, and
`SelfSubscription` is reported exactly when no such pair is stored. -/
theorem already_subscribed_precedes_self (pairs : List (Int × Int)) (u : Int) :
    ((u, u) ∈ pairs →
      SubscribeSerializer.validate pairs u u =
        Except.error SubErr.alreadySubscribed)
    ∧ ((u, u) ∉ pairs →
      SubscribeSerializer.validate pairs u u =
        Except.error SubErr.selfSubscription) := by
  constructor <;> intro h <;> simp [SubscribeSerializer.validate, h]

/-- Witness for C10 with user 2 and the stored tables [(2, 2)] and []. -/
theorem already_subscribed_precedes_self_witness :
    SubscribeSerializer.validate [(2, 2)] 2 2 =
        Except.error SubErr.alreadySubscribed
    ∧ SubscribeSerializer.validate [] 2 2 =
        Except.error SubErr.selfSubscription :=
  ⟨(already_subscribed_precedes_self [(2, 2)] 2).1 (by decide),
   (already_subscribed_precedes_self [] 2).2 (by decide)⟩

end Foodgram
